import Mathlib

/-!
Verification development for the vulkan-fdf renderer.

Shallow embedding of the frame-lifecycle and resource-lifecycle code:
`VulkanImage::transitionLayout`, `VulkanSwapchain::chooseImageCount` /
`recreate`, `VulkanBuffer::map` / `copyData`, `SyncManager`,
`Renderer::drawFrame` / `recordCommandBuffer`, and the OBJ-loader vertex
deduplication.  Machine integers are modelled as `Nat`/`Int`; float fields
participate only through exact equality, so they are modelled as `Int`
bit-pattern stand-ins; C++ exceptions are modelled as explicit error
channels (`Option`/`Except`); calls into the Vulkan driver are modelled as
recorded events or environment-supplied results.
-/

namespace VulkanFdf

/-- Subset of `vk::Result` values that the renderer inspects. -/
inductive VkResult where
  | success
  | suboptimalKHR
  | errorOutOfDateKHR
  | errorDeviceLost
deriving DecidableEq, Repr

/-- Subset of `vk::ImageLayout` values used by the program. -/
inductive ImageLayout where
  | undefined
  | general
  | transferDstOptimal
  | shaderReadOnlyOptimal
  | colorAttachmentOptimal
  | depthStencilAttachmentOptimal
  | presentSrcKHR
deriving DecidableEq, Repr

/-- Access-mask values set by `VulkanImage::transitionLayout`. -/
inductive AccessFlag where
  | noAccess
  | transferWrite
  | shaderRead
deriving DecidableEq, Repr

/-- Pipeline-stage values set by `VulkanImage::transitionLayout`. -/
inductive PipelineStage where
  | topOfPipe
  | transfer
  | fragmentShader
deriving DecidableEq, Repr

/-- The `vk::ImageMemoryBarrier` fields that `transitionLayout` fills in. -/
structure GpuBarrier where
  srcAccessMask : AccessFlag
  dstAccessMask : AccessFlag
  oldLayout : ImageLayout
  newLayout : ImageLayout
deriving DecidableEq, Repr

/-- GPU commands recordable by `VulkanImage::transitionLayout`. -/
inductive GpuCmd where
  | pipelineBarrier (srcStage dstStage : PipelineStage) (barrier : GpuBarrier)
deriving DecidableEq, Repr

/-- Error thrown by `transitionLayout` on an unsupported pair
(`std::invalid_argument` in the source). -/
inductive TransitionError where
  | unsupportedTransition
deriving DecidableEq, Repr

/-- Embedding of `VulkanImage::transitionLayout` (VulkanImage.cpp).  Returns
the list of GPU commands recorded on the command buffer together with the
error channel: the source throws before calling `pipelineBarrier` on the
unsupported path, so that path records nothing. -/
def VulkanImage.transitionLayout (oldLayout newLayout : ImageLayout) :
    List GpuCmd × Option TransitionError :=
  if oldLayout = ImageLayout.undefined ∧ newLayout = ImageLayout.transferDstOptimal then
    ([GpuCmd.pipelineBarrier PipelineStage.topOfPipe PipelineStage.transfer
        { srcAccessMask := AccessFlag.noAccess
          dstAccessMask := AccessFlag.transferWrite
          oldLayout := oldLayout
          newLayout := newLayout }], none)
  else if oldLayout = ImageLayout.transferDstOptimal ∧ newLayout = ImageLayout.shaderReadOnlyOptimal then
    ([GpuCmd.pipelineBarrier PipelineStage.transfer PipelineStage.fragmentShader
        { srcAccessMask := AccessFlag.transferWrite
          dstAccessMask := AccessFlag.shaderRead
          oldLayout := oldLayout
          newLayout := newLayout }], none)
  else
    ([], some TransitionError.unsupportedTransition)

/-- The surface-capability fields read by `chooseImageCount`
(`vk::SurfaceCapabilitiesKHR`); `maxImageCount = 0` means "no maximum". -/
structure SurfaceCapabilities where
  minImageCount : Nat
  maxImageCount : Nat
deriving DecidableEq, Repr

/-- Embedding of `VulkanSwapchain::chooseImageCount` (VulkanSwapchain.cpp). -/
def VulkanSwapchain.chooseImageCount (c : SurfaceCapabilities) : Nat :=
  let imageCount := max 3 c.minImageCount
  if 0 < c.maxImageCount ∧ c.maxImageCount < imageCount then c.maxImageCount
  else imageCount

/-- Error thrown by `VulkanBuffer::copyData` when the buffer is not mapped. -/
inductive BufferError where
  | notMapped
deriving DecidableEq, Repr

/-- Embedding of a `VulkanBuffer`: `mappedData` models whether the
`mappedData` pointer is non-null, `memoryContents` models the bytes of the
backing device memory. -/
structure VulkanBuffer where
  size : Nat
  mappedData : Bool
  memoryContents : List Nat
deriving DecidableEq, Repr

/-- Embedding of the `VulkanBuffer` constructor: a fresh buffer starts with
`mappedData = nullptr` (memory contents are unspecified; modelled as zeros). -/
def VulkanBuffer.create (size : Nat) : VulkanBuffer :=
  { size := size, mappedData := false, memoryContents := List.replicate size 0 }

/-- Embedding of `VulkanBuffer::map` (VulkanBuffer.cpp): the body runs only
when `mappedData == nullptr`; a second call falls through without any effect
and without throwing.  The `Option BufferError` channel models the C++
exception channel (never used by this function). -/
def VulkanBuffer.map (b : VulkanBuffer) : VulkanBuffer × Option BufferError :=
  if b.mappedData = false then ({ b with mappedData := true }, none)
  else (b, none)

/-- Embedding of `VulkanBuffer::unmap` (VulkanBuffer.cpp). -/
def VulkanBuffer.unmap (b : VulkanBuffer) : VulkanBuffer :=
  if b.mappedData = true then { b with mappedData := false }
  else b

/-- Model of `memcpy(mappedData, data, copySize)` over the byte list. -/
def writeBytes (mem src : List Nat) (copySize : Nat) : List Nat :=
  src.take copySize ++ mem.drop copySize

/-- Embedding of `VulkanBuffer::copyData` (VulkanBuffer.cpp): throws
`NotMappedError` when `mappedData == nullptr`, otherwise memcpys into the
mapped memory. -/
def VulkanBuffer.copyData (b : VulkanBuffer) (data : List Nat) (copySize : Nat) :
    VulkanBuffer × Option BufferError :=
  if b.mappedData = false then (b, some BufferError.notMapped)
  else ({ b with memoryContents := writeBytes b.memoryContents data copySize }, none)

/-- Environment supplied by the driver when the swapchain is (re)built:
the list of image handles `swapchain.getImages()` returns. -/
structure SwapchainEnv where
  images : List Nat
deriving DecidableEq, Repr

/-- Failure of the `assert(imageViews.empty())` in `createImageViews`. -/
inductive SwapchainError where
  | imageViewsNotEmpty
deriving DecidableEq, Repr

/-- Embedding of the `VulkanSwapchain` state relevant to image/view
consistency: the stored images and the stored per-image views. -/
structure VulkanSwapchain where
  images : List Nat
  imageViews : List Nat
deriving DecidableEq, Repr

/-- Embedding of `VulkanSwapchain::createSwapchain` restricted to the state
it mutates here: `images = swapchain.getImages()`. -/
def VulkanSwapchain.createSwapchainImages (st : VulkanSwapchain) (env : SwapchainEnv) :
    VulkanSwapchain :=
  { st with images := env.images }

/-- Embedding of `VulkanSwapchain::createImageViews` (VulkanSwapchain.cpp):
asserts the view list is empty, then emplaces one view per stored image. -/
def VulkanSwapchain.createImageViews (st : VulkanSwapchain) :
    Except SwapchainError VulkanSwapchain :=
  if st.imageViews.isEmpty then
    Except.ok { st with imageViews := st.images.map (fun image => image) }
  else
    Except.error SwapchainError.imageViewsNotEmpty

/-- Embedding of `VulkanSwapchain::cleanup`: clears the image views and
drops the chain handle (the `images` vector itself is not cleared). -/
def VulkanSwapchain.cleanup (st : VulkanSwapchain) : VulkanSwapchain :=
  { st with imageViews := [] }

/-- Embedding of `VulkanSwapchain::recreate` (VulkanSwapchain.cpp): device
wait-idle (no observable state here), `cleanup`, `createSwapchain`,
`createImageViews`. -/
def VulkanSwapchain.recreate (st : VulkanSwapchain) (env : SwapchainEnv) :
    Except SwapchainError VulkanSwapchain :=
  ((st.cleanup).createSwapchainImages env).createImageViews

/-- `Renderer::MAX_FRAMES_IN_FLIGHT`. -/
def MAX_FRAMES_IN_FLIGHT : Nat := 2

/-- A fence with its signaled state (`vk::FenceCreateFlagBits::eSignaled`
at creation). -/
structure Fence where
  signaled : Bool
deriving DecidableEq, Repr

/-- Semaphore handles, tagged by the creating loop and creation index so
that distinct creations are distinct values. -/
inductive Semaphore where
  | imageAvailable (slot : Nat)
  | renderFinished (image : Nat)
deriving DecidableEq, Repr

/-- Embedding of the `SyncManager` state (SyncManager.hpp). -/
structure SyncManager where
  maxFramesInFlight : Nat
  imageAvailableSemaphores : List Semaphore
  renderFinishedSemaphores : List Semaphore
  inFlightFences : List Fence
deriving DecidableEq, Repr

/-- Embedding of the `SyncManager` constructor (SyncManager.cpp): one
image-available semaphore and one pre-signaled fence per frame-in-flight
slot, one render-finished semaphore per swapchain image. -/
def SyncManager.create (maxFramesInFlight swapchainImageCount : Nat) : SyncManager :=
  { maxFramesInFlight := maxFramesInFlight
    imageAvailableSemaphores :=
      (List.range maxFramesInFlight).map Semaphore.imageAvailable
    renderFinishedSemaphores :=
      (List.range swapchainImageCount).map Semaphore.renderFinished
    inFlightFences :=
      (List.range maxFramesInFlight).map (fun _ => { signaled := true }) }

/-- Embedding of `SyncManager::getImageAvailableSemaphore`. -/
def SyncManager.getImageAvailableSemaphore (sm : SyncManager) (frameIndex : Nat) : Semaphore :=
  sm.imageAvailableSemaphores.getD frameIndex (Semaphore.imageAvailable 0)

/-- Embedding of `SyncManager::getRenderFinishedSemaphore` (indexed by
swapchain image index per its declaration comment). -/
def SyncManager.getRenderFinishedSemaphore (sm : SyncManager) (imageIndex : Nat) : Semaphore :=
  sm.renderFinishedSemaphores.getD imageIndex (Semaphore.renderFinished 0)

/-- Embedding of `SyncManager::resetFence`: unsignals the slot's fence. -/
def SyncManager.resetFence (sm : SyncManager) (frameIndex : Nat) : SyncManager :=
  { sm with inFlightFences := sm.inFlightFences.set frameIndex { signaled := false } }

/-- The external calls `Renderer::drawFrame` makes, in order, as a trace. -/
inductive FrameEvent where
  | waitFence (slot : Nat)
  | acquireImage (signalSem : Semaphore)
  | recreateSwapchain
  | updateUniform (slot : Nat)
  | resetFence (slot : Nat)
  | resetCommandBuffer (slot : Nat)
  | recordCommands (slot imageIndex : Nat)
  | submit (waitSem signalSem : Semaphore) (fenceSlot : Nat)
  | presentImage (waitSem : Semaphore) (imageIndex : Nat)
deriving DecidableEq, Repr

/-- The `std::runtime_error`s `drawFrame` can throw. -/
inductive DrawError where
  | acquireFailed
  | presentFailed
deriving DecidableEq, Repr

/-- The `Renderer` state that `drawFrame` reads and writes. -/
structure Renderer where
  currentFrame : Nat
  syncManager : SyncManager
deriving DecidableEq, Repr

/-- Result of one `drawFrame` call: the renderer state after the call (as
left by a normal return or by exception propagation), the trace of external
calls made, and the exception channel. -/
structure DrawOutcome where
  renderer : Renderer
  events : List FrameEvent
  error : Option DrawError
deriving DecidableEq, Repr

/-- Driver-supplied results for one frame: what `acquireNextImage` and
`presentKHR` return. -/
structure FrameEnv where
  acquireResult : VkResult
  acquireImageIndex : Nat
  presentResult : VkResult
deriving DecidableEq, Repr

/-- Embedding of `Renderer::drawFrame` (Renderer.cpp lines 105-164):
wait on the current slot's fence; acquire with the slot's image-available
semaphore; on out-of-date recreate once and return; on any other failure
throw; otherwise update the uniform, reset the slot's fence and command
buffer, record, submit waiting on the slot's acquire semaphore and
signaling the image-indexed render-finished semaphore and the slot's
fence, present waiting on that same semaphore; recreate on
out-of-date/suboptimal present, throw on other present failure; advance
the frame slot. -/
def Renderer.drawFrame (r : Renderer) (env : FrameEnv) : DrawOutcome :=
  let f := r.currentFrame
  let evs0 := [FrameEvent.waitFence f,
               FrameEvent.acquireImage (r.syncManager.getImageAvailableSemaphore f)]
  let result := env.acquireResult
  let imageIndex := env.acquireImageIndex
  if result = VkResult.errorOutOfDateKHR then
    { renderer := r, events := evs0 ++ [FrameEvent.recreateSwapchain], error := none }
  else if result ≠ VkResult.success ∧ result ≠ VkResult.suboptimalKHR then
    { renderer := r, events := evs0, error := some DrawError.acquireFailed }
  else
    let r1 : Renderer := { r with syncManager := r.syncManager.resetFence f }
    let evs1 := evs0 ++
      [FrameEvent.updateUniform f,
       FrameEvent.resetFence f,
       FrameEvent.resetCommandBuffer f,
       FrameEvent.recordCommands f imageIndex,
       FrameEvent.submit (r.syncManager.getImageAvailableSemaphore f)
                         (r.syncManager.getRenderFinishedSemaphore imageIndex) f]
    let evs2 := evs1 ++
      [FrameEvent.presentImage (r.syncManager.getRenderFinishedSemaphore imageIndex) imageIndex]
    if env.presentResult = VkResult.errorOutOfDateKHR ∨
       env.presentResult = VkResult.suboptimalKHR then
      { renderer := { r1 with currentFrame := (f + 1) % MAX_FRAMES_IN_FLIGHT }
        events := evs2 ++ [FrameEvent.recreateSwapchain]
        error := none }
    else if env.presentResult ≠ VkResult.success then
      { renderer := r1, events := evs2, error := some DrawError.presentFailed }
    else
      { renderer := { r1 with currentFrame := (f + 1) % MAX_FRAMES_IN_FLIGHT }
        events := evs2
        error := none }

/-- Embedding of `Renderer::handleFramebufferResize` (Renderer.cpp lines
170-172): it calls `recreateSwapchain()` directly. -/
def Renderer.handleFramebufferResize (r : Renderer) : Renderer × List FrameEvent :=
  (r, [FrameEvent.recreateSwapchain])

/-- Embedding of `Application::framebufferResizeCallback` (Application.cpp
lines 57-60): looks up the application and calls
`renderer->handleFramebufferResize()`. -/
def Application.framebufferResizeCallback (r : Renderer) : Renderer × List FrameEvent :=
  r.handleFramebufferResize

/-- A renderer as built by the `Renderer` constructor, for concrete
instantiations (2 frames in flight, a 3-image swapchain). -/
def initialRenderer : Renderer :=
  { currentFrame := 0, syncManager := SyncManager.create MAX_FRAMES_IN_FLIGHT 3 }

/-- Model of `glm::vec3`: three float components, modelled as exact values
(`Int` bit-pattern stand-ins); only exact equality of components is used. -/
structure Vec3 where
  x : Int
  y : Int
  z : Int
deriving DecidableEq, Repr, Inhabited

/-- Model of `glm::vec2`. -/
structure Vec2 where
  x : Int
  y : Int
deriving DecidableEq, Repr, Inhabited

/-- Embedding of `Vertex` (utils/Vertex.hpp): position, color, texture
coordinate; `operator==` is exact field-wise equality (derived here). -/
structure Vertex where
  pos : Vec3
  color : Vec3
  texCoord : Vec2
deriving DecidableEq, Repr, Inhabited

/-- The three locals of the dedup loop in `OBJLoader::load`
(OBJLoader.cpp lines 24-59): the `uniqueVertices` map (as the association
list of its entries), the output `vertices`, the output `indices`. -/
structure DedupState where
  uniqueVertices : List (Vertex × Nat)
  vertices : List Vertex
  indices : List Nat
deriving DecidableEq, Repr

/-- One iteration of the dedup loop body in `OBJLoader::load`: if the
vertex is not yet a key of `uniqueVertices`, insert it with value
`vertices.size()` and push it onto `vertices`; then push
`uniqueVertices[vertex]` onto `indices`. -/
def DedupState.processVertex (st : DedupState) (v : Vertex) : DedupState :=
  match st.uniqueVertices.find? (fun p => p.1 == v) with
  | none =>
    { uniqueVertices := st.uniqueVertices ++ [(v, st.vertices.length)]
      vertices := st.vertices ++ [v]
      indices := st.indices ++ [st.vertices.length] }
  | some p =>
    { st with indices := st.indices ++ [p.2] }

/-- Embedding of the deduplication step of `OBJLoader::load`: the input is
the sequence of per-face-corner vertices in face order (as the nested
shape/index loops produce them); the outputs are the deduplicated vertex
buffer and the index buffer. -/
def OBJLoader.dedupVertices (input : List Vertex) : List Vertex × List Nat :=
  let st := input.foldl DedupState.processVertex
    { uniqueVertices := [], vertices := [], indices := [] }
  (st.vertices, st.indices)

/-- Stated from the claim's words, for comparison with the code: the
distinct vertices of a sequence in first-occurrence order. -/
def firstOccurrences (l : List Vertex) : List Vertex :=
  l.foldl (fun acc v => if v ∈ acc then acc else acc ++ [v]) []

/-- Loop invariant of the dedup loop: every map entry points at the
position in `vertices` holding its key, every vertex in `vertices` has a
map entry, and every emitted index is in range. -/
def DedupInv (st : DedupState) : Prop :=
  (∀ p ∈ st.uniqueVertices, p.2 < st.vertices.length ∧
      st.vertices.getD p.2 default = p.1) ∧
  (∀ v ∈ st.vertices, ∃ i, (v, i) ∈ st.uniqueVertices) ∧
  (∀ i ∈ st.indices, i < st.vertices.length)

/-- Platform switch of `Renderer::recordCommandBuffer`: the Linux
render-pass branch versus the dynamic-rendering branch. -/
inductive Platform where
  | linuxRenderPass
  | dynamicRenderingPlatform
deriving DecidableEq, Repr

/-- Commands recordable by `recordCommandBuffer` and `Mesh::bind`/`draw`. -/
inductive RecordCmd where
  | beginBuffer
  | beginRenderPassCmd (clearValueCount : Nat)
  | imageBarrier (oldLayout newLayout : ImageLayout)
  | beginRenderingCmd (colorClear depthClear : Bool)
  | bindPipelineCmd
  | setViewport
  | setScissor
  | bindVertexBuffer
  | bindIndexBuffer
  | bindDescriptorSets (slot : Nat)
  | drawIndexed (indexCount : Nat)
  | endRenderPassCmd
  | endRenderingCmd
  | endBuffer
deriving DecidableEq, Repr

/-- The `std::runtime_error`s of `Mesh::bind` / `Mesh::draw` on an empty
mesh. -/
inductive MeshError where
  | emptyMeshBind
  | emptyMeshDraw
deriving DecidableEq, Repr

/-- Embedding of `Mesh` data (scene/Mesh.hpp). -/
structure Mesh where
  vertices : List Vertex
  indices : List Nat
deriving DecidableEq, Repr

/-- Embedding of `Mesh::hasData`. -/
def Mesh.hasData (m : Mesh) : Bool :=
  !m.vertices.isEmpty && !m.indices.isEmpty

/-- Embedding of `Mesh::bind` (Mesh.cpp lines 80-87): throws on an empty
mesh, otherwise binds the vertex and index buffers. -/
def Mesh.bind (m : Mesh) : Except MeshError (List RecordCmd) :=
  if !m.hasData then Except.error MeshError.emptyMeshBind
  else Except.ok [RecordCmd.bindVertexBuffer, RecordCmd.bindIndexBuffer]

/-- Embedding of `Mesh::draw` (Mesh.cpp lines 89-95): throws on an empty
mesh, otherwise issues one indexed draw of all indices. -/
def Mesh.draw (m : Mesh) : Except MeshError (List RecordCmd) :=
  if !m.hasData then Except.error MeshError.emptyMeshDraw
  else Except.ok [RecordCmd.drawIndexed m.indices.length]

/-- The mesh section of `recordCommandBuffer`: guarded by
`mesh && mesh->hasData()`, it binds the mesh, binds the slot's descriptor
set, and draws; otherwise it records nothing. -/
def recordMeshSection (mesh : Option Mesh) (currentFrame : Nat) :
    Except MeshError (List RecordCmd) :=
  match mesh with
  | none => Except.ok []
  | some m =>
    if m.hasData then do
      let bindCmds ← m.bind
      let drawCmds ← m.draw
      Except.ok (bindCmds ++ [RecordCmd.bindDescriptorSets currentFrame] ++ drawCmds)
    else Except.ok []

/-- Embedding of `Renderer::recordCommandBuffer` (Renderer.cpp): begin,
then either the render-pass branch (begin render pass with the two clear
values, bind pipeline, set viewport and scissor, mesh section, end render
pass) or the dynamic-rendering branch (color and depth layout barriers,
begin rendering with clearing color and depth attachments, bind pipeline,
set viewport and scissor, mesh section, end rendering, present-layout
barrier), then end. -/
def Renderer.recordCommandBuffer (platform : Platform) (mesh : Option Mesh)
    (currentFrame imageIndex : Nat) : Except MeshError (List RecordCmd) := do
  let meshCmds ← recordMeshSection mesh currentFrame
  match platform with
  | Platform.linuxRenderPass =>
    Except.ok ([RecordCmd.beginBuffer,
                RecordCmd.beginRenderPassCmd 2,
                RecordCmd.bindPipelineCmd,
                RecordCmd.setViewport,
                RecordCmd.setScissor] ++ meshCmds ++
               [RecordCmd.endRenderPassCmd,
                RecordCmd.endBuffer])
  | Platform.dynamicRenderingPlatform =>
    Except.ok ([RecordCmd.beginBuffer,
                RecordCmd.imageBarrier ImageLayout.undefined ImageLayout.colorAttachmentOptimal,
                RecordCmd.imageBarrier ImageLayout.undefined ImageLayout.depthStencilAttachmentOptimal,
                RecordCmd.beginRenderingCmd true true,
                RecordCmd.bindPipelineCmd,
                RecordCmd.setViewport,
                RecordCmd.setScissor] ++ meshCmds ++
               [RecordCmd.endRenderingCmd,
                RecordCmd.imageBarrier ImageLayout.colorAttachmentOptimal ImageLayout.presentSrcKHR,
                RecordCmd.endBuffer])

/-! ## Theorems -/

/-- Claim C5: `transitionLayout` succeeds for exactly the two pairs
undefined→transfer-destination and transfer-destination→shader-read-only;
every other pair fails with the unsupported-transition error and records
no GPU command. -/
theorem transitionLayout_supported_pairs (o n : ImageLayout) :
    ((VulkanImage.transitionLayout o n).2 = none ↔
      ((o = ImageLayout.undefined ∧ n = ImageLayout.transferDstOptimal) ∨
       (o = ImageLayout.transferDstOptimal ∧ n = ImageLayout.shaderReadOnlyOptimal))) ∧
    ((VulkanImage.transitionLayout o n).2 ≠ none →
      (VulkanImage.transitionLayout o n).2 = some TransitionError.unsupportedTransition ∧
      (VulkanImage.transitionLayout o n).1 = []) := by
  cases o <;> cases n <;> decide

/-- Witness for C5 at a concrete unsupported pair. -/
theorem transitionLayout_supported_pairs_witness :
    (VulkanImage.transitionLayout ImageLayout.general ImageLayout.presentSrcKHR).2 =
      some TransitionError.unsupportedTransition ∧
    (VulkanImage.transitionLayout ImageLayout.general ImageLayout.presentSrcKHR).1 = [] :=
  (transitionLayout_supported_pairs ImageLayout.general ImageLayout.presentSrcKHR).2
    (by decide)

/-- Claim C6: the chosen swapchain image count is `max 3 minImageCount`,
additionally clamped down to `maxImageCount` when a maximum exists
(`maxImageCount ≠ 0`). -/
theorem chooseImageCount_spec (c : SurfaceCapabilities) :
    VulkanSwapchain.chooseImageCount c =
      if c.maxImageCount = 0 then max 3 c.minImageCount
      else min (max 3 c.minImageCount) c.maxImageCount := by
  have h : VulkanSwapchain.chooseImageCount c =
      if 0 < c.maxImageCount ∧ c.maxImageCount < max 3 c.minImageCount then c.maxImageCount
      else max 3 c.minImageCount := rfl
  rw [h]
  split_ifs <;> omega

/-- Claim C7: `recreate` always succeeds (the cleanup clears the views, so
the `createImageViews` assertion holds) and leaves one view per image, and
a repeated `recreate` preserves this consistency. -/
theorem recreate_consistent (st : VulkanSwapchain) (env : SwapchainEnv) :
    ∃ st2, st.recreate env = Except.ok st2 ∧
      st2.images.length = st2.imageViews.length ∧
      ∀ env2, ∃ st3, st2.recreate env2 = Except.ok st3 ∧
        st3.images.length = st3.imageViews.length := by
  refine ⟨{ images := env.images, imageViews := env.images.map (fun image => image) }, ?_, ?_, ?_⟩
  · simp [VulkanSwapchain.recreate, VulkanSwapchain.cleanup,
      VulkanSwapchain.createSwapchainImages, VulkanSwapchain.createImageViews]
  · simp
  · intro env2
    refine ⟨{ images := env2.images, imageViews := env2.images.map (fun image => image) }, ?_, ?_⟩
    · simp [VulkanSwapchain.recreate, VulkanSwapchain.cleanup,
        VulkanSwapchain.createSwapchainImages, VulkanSwapchain.createImageViews]
    · simp

/-- Claim C8: `copyData` fails with the not-mapped error exactly when the
buffer is not mapped; on that error the buffer is unchanged; after a prior
`map()` the copy succeeds and writes the given bytes into the mapped
memory. -/
theorem copyData_requires_map (b : VulkanBuffer) (data : List Nat) (n : Nat) :
    ((b.copyData data n).2 = some BufferError.notMapped ↔ b.mappedData = false) ∧
    (b.mappedData = false → (b.copyData data n).1 = b) ∧
    (b.map.1.copyData data n).2 = none ∧
    (b.map.1.copyData data n).1.memoryContents = writeBytes b.memoryContents data n := by
  by_cases h : b.mappedData <;>
    simp [VulkanBuffer.copyData, VulkanBuffer.map, h]

/-- Witness for C8 at a concrete buffer. -/
theorem copyData_requires_map_witness :
    ((VulkanBuffer.create 2).copyData [7, 7] 2).1 = VulkanBuffer.create 2 :=
  (copyData_requires_map (VulkanBuffer.create 2) [7, 7] 2).2.1 (by decide)

/-- Counterexample for C9 as stated: mapping a buffer twice does not raise
any error — the second `map()` returns without effect, because the body of
`VulkanBuffer::map` runs only when `mappedData == nullptr`. -/
theorem map_twice_no_error_cex :
    ((VulkanBuffer.create 4).map.1.map.2 = none) ∧
    ((VulkanBuffer.create 4).map.1.map.1 = (VulkanBuffer.create 4).map.1) := by
  decide

/-- Claim C9 amended: calling `map()` on an already-mapped buffer is
silently ignored — no error is raised and the buffer state is unchanged. -/
theorem map_already_mapped_noop (b : VulkanBuffer) (h : b.mappedData = true) :
    b.map = (b, none) := by
  simp [VulkanBuffer.map, h]

/-- Witness for the amended C9 at a concrete mapped buffer. -/
theorem map_already_mapped_noop_witness :
    ((VulkanBuffer.create 4).map.1).map = ((VulkanBuffer.create 4).map.1, none) :=
  map_already_mapped_noop ((VulkanBuffer.create 4).map.1) (by decide)

/-- In a constructed `SyncManager`, the acquire semaphore of a valid slot
is the one created for that slot. -/
theorem SyncManager.create_getImageAvailable (F N i : Nat) (h : i < F) :
    (SyncManager.create F N).getImageAvailableSemaphore i = Semaphore.imageAvailable i := by
  simp [SyncManager.create, SyncManager.getImageAvailableSemaphore,
    List.getD_eq_getElem?_getD, List.getElem?_map, List.getElem?_range h]

/-- In a constructed `SyncManager`, the render-finished semaphore of a
valid image index is the one created for that image. -/
theorem SyncManager.create_getRenderFinished (F N i : Nat) (h : i < N) :
    (SyncManager.create F N).getRenderFinishedSemaphore i = Semaphore.renderFinished i := by
  simp [SyncManager.create, SyncManager.getRenderFinishedSemaphore,
    List.getD_eq_getElem?_getD, List.getElem?_map, List.getElem?_range h]

/-- Claim C1: when acquire reports the swapchain out of date, `drawFrame`
recreates the swapchain exactly once and returns early: the renderer state
(including the current frame slot and every fence) is unchanged, no error
is thrown, the slot's fence is not reset, no command buffer is reset or
recorded, nothing is submitted, and nothing is presented. -/
theorem drawFrame_stale_acquire (r : Renderer) (env : FrameEnv)
    (h : env.acquireResult = VkResult.errorOutOfDateKHR) :
    (r.drawFrame env).renderer = r ∧
    (r.drawFrame env).error = none ∧
    (r.drawFrame env).events.count FrameEvent.recreateSwapchain = 1 ∧
    (∀ s, FrameEvent.resetFence s ∉ (r.drawFrame env).events) ∧
    (∀ s, FrameEvent.resetCommandBuffer s ∉ (r.drawFrame env).events) ∧
    (∀ s i, FrameEvent.recordCommands s i ∉ (r.drawFrame env).events) ∧
    (∀ w g s, FrameEvent.submit w g s ∉ (r.drawFrame env).events) ∧
    (∀ w i, FrameEvent.presentImage w i ∉ (r.drawFrame env).events) := by
  simp [Renderer.drawFrame, h, List.count_cons, List.count_nil]

/-- Witness for C1: a stale acquire on the freshly constructed renderer
leaves the renderer (its frame slot and fences) unchanged. -/
theorem drawFrame_stale_acquire_witness :
    (initialRenderer.drawFrame
      { acquireResult := VkResult.errorOutOfDateKHR, acquireImageIndex := 0,
        presentResult := VkResult.success }).renderer = initialRenderer :=
  (drawFrame_stale_acquire initialRenderer
    { acquireResult := VkResult.errorOutOfDateKHR, acquireImageIndex := 0,
      presentResult := VkResult.success } rfl).1

/-- Claim C2: whenever `drawFrame` proceeds past acquire, the submitted
batch waits on the slot-indexed image-available semaphore, signals the
image-indexed render-finished semaphore and the slot's fence, and present
waits on that same image-indexed semaphore — and every submit or present
event in the trace uses exactly those; moreover the `SyncManager`
constructor makes one fence and one image-available semaphore per
frame-in-flight slot and one render-finished semaphore per swapchain
image. -/
theorem drawFrame_semaphore_indexing (F N : Nat) (r : Renderer) (env : FrameEnv)
    (hsm : r.syncManager = SyncManager.create F N)
    (hf : r.currentFrame < F) (hi : env.acquireImageIndex < N)
    (hacq : env.acquireResult = VkResult.success ∨
            env.acquireResult = VkResult.suboptimalKHR) :
    r.syncManager.inFlightFences.length = F ∧
    r.syncManager.imageAvailableSemaphores.length = F ∧
    r.syncManager.renderFinishedSemaphores.length = N ∧
    FrameEvent.submit (Semaphore.imageAvailable r.currentFrame)
        (Semaphore.renderFinished env.acquireImageIndex) r.currentFrame
      ∈ (r.drawFrame env).events ∧
    FrameEvent.presentImage (Semaphore.renderFinished env.acquireImageIndex)
        env.acquireImageIndex ∈ (r.drawFrame env).events ∧
    (∀ w g s, FrameEvent.submit w g s ∈ (r.drawFrame env).events →
      w = Semaphore.imageAvailable r.currentFrame ∧
      g = Semaphore.renderFinished env.acquireImageIndex ∧ s = r.currentFrame) ∧
    (∀ w i, FrameEvent.presentImage w i ∈ (r.drawFrame env).events →
      w = Semaphore.renderFinished env.acquireImageIndex ∧ i = env.acquireImageIndex) := by
  have e1 : r.syncManager.getImageAvailableSemaphore r.currentFrame =
      Semaphore.imageAvailable r.currentFrame := by
    rw [hsm]; exact SyncManager.create_getImageAvailable F N r.currentFrame hf
  have e2 : r.syncManager.getRenderFinishedSemaphore env.acquireImageIndex =
      Semaphore.renderFinished env.acquireImageIndex := by
    rw [hsm]; exact SyncManager.create_getRenderFinished F N env.acquireImageIndex hi
  refine ⟨by rw [hsm]; simp [SyncManager.create],
          by rw [hsm]; simp [SyncManager.create],
          by rw [hsm]; simp [SyncManager.create], ?_⟩
  rcases hacq with h | h <;>
  · simp only [Renderer.drawFrame, h, e1, e2]
    split_ifs <;> simp_all

/-- Witness for C2 on the freshly constructed renderer acquiring image 1. -/
theorem drawFrame_semaphore_indexing_witness :
    FrameEvent.submit (Semaphore.imageAvailable 0) (Semaphore.renderFinished 1) 0
      ∈ (initialRenderer.drawFrame
          { acquireResult := VkResult.success, acquireImageIndex := 1,
            presentResult := VkResult.success }).events :=
  (drawFrame_semaphore_indexing 2 3 initialRenderer
    { acquireResult := VkResult.success, acquireImageIndex := 1,
      presentResult := VkResult.success }
    rfl (by decide) (by decide) (Or.inl rfl)).2.2.2.1

/-- Counterexample for C4 as stated: the resize callback does not merely
set a flag — `Application::framebufferResizeCallback` calls
`Renderer::handleFramebufferResize`, which immediately calls
`recreateSwapchain()`, so recreation happens inside the callback itself,
outside any per-iteration flag check. -/
theorem resize_callback_recreates_cex :
    (Application.framebufferResizeCallback initialRenderer).2 =
      [FrameEvent.recreateSwapchain] := by
  decide

/-- Claim C4 amended: there is no framebuffer-resized flag; the external
resize callback triggers swapchain recreation immediately, and the
post-present recreation in `drawFrame` is driven solely by the present
result (out-of-date or suboptimal), not by any resize flag. -/
theorem resize_recreates_immediately (r : Renderer) (env : FrameEnv)
    (hacq : env.acquireResult = VkResult.success ∨
            env.acquireResult = VkResult.suboptimalKHR) :
    Application.framebufferResizeCallback r = (r, [FrameEvent.recreateSwapchain]) ∧
    (FrameEvent.recreateSwapchain ∈ (r.drawFrame env).events ↔
      (env.presentResult = VkResult.errorOutOfDateKHR ∨
       env.presentResult = VkResult.suboptimalKHR)) := by
  refine ⟨rfl, ?_⟩
  rcases hacq with h | h <;>
  · simp only [Renderer.drawFrame, h]
    split_ifs <;> simp_all

/-- Witness for the amended C4: on a successful frame with a successful
present, no recreation happens. -/
theorem resize_recreates_immediately_witness :
    ¬ FrameEvent.recreateSwapchain ∈ (initialRenderer.drawFrame
        { acquireResult := VkResult.success, acquireImageIndex := 0,
          presentResult := VkResult.success }).events :=
  fun hmem =>
    by simpa using (resize_recreates_immediately initialRenderer
      { acquireResult := VkResult.success, acquireImageIndex := 0,
        presentResult := VkResult.success } (Or.inl rfl)).2.mp hmem

/-- The guarded mesh section never throws, for any mesh state: the
`mesh && mesh->hasData()` guard keeps `Mesh::bind` and `Mesh::draw` off
the empty-mesh error branches. -/
theorem recordMeshSection_ok (mesh : Option Mesh) (f : Nat) :
    (recordMeshSection mesh f).isOk = true := by
  cases mesh with
  | none => rfl
  | some m =>
    by_cases h : m.hasData <;>
      simp [recordMeshSection, Mesh.bind, Mesh.draw, h, Bind.bind, Except.bind,
        Except.isOk, Except.toBool]

/-- Claim C10: `recordCommandBuffer` never throws for any mesh state (the
`hasData` guard makes the empty-mesh error branches of `Mesh::bind` and
`Mesh::draw` unreachable), and with no mesh or a dataless mesh it still
records a complete command buffer — begin, clear-loaded render
pass/rendering, pipeline bind, viewport, scissor, end — while omitting the
mesh bind, descriptor bind, and draw. -/
theorem recordCommandBuffer_empty_mesh (platform : Platform) (mesh : Option Mesh)
    (f i : Nat)
    (h : mesh = none ∨ ∃ m, mesh = some m ∧ m.hasData = false) :
    (∀ p2 m2 f2 i2, (Renderer.recordCommandBuffer p2 m2 f2 i2).isOk = true) ∧
    ∃ cmds, Renderer.recordCommandBuffer platform mesh f i = Except.ok cmds ∧
      RecordCmd.beginBuffer ∈ cmds ∧
      RecordCmd.bindPipelineCmd ∈ cmds ∧
      RecordCmd.setViewport ∈ cmds ∧
      RecordCmd.setScissor ∈ cmds ∧
      RecordCmd.endBuffer ∈ cmds ∧
      (RecordCmd.beginRenderPassCmd 2 ∈ cmds ∨ RecordCmd.beginRenderingCmd true true ∈ cmds) ∧
      RecordCmd.bindVertexBuffer ∉ cmds ∧
      RecordCmd.bindIndexBuffer ∉ cmds ∧
      (∀ s, RecordCmd.bindDescriptorSets s ∉ cmds) ∧
      (∀ n, RecordCmd.drawIndexed n ∉ cmds) := by
  constructor
  · intro p2 m2 f2 i2
    have hok := recordMeshSection_ok m2 f2
    rcases hm : recordMeshSection m2 f2 with e | cmds
    · rw [hm] at hok; simp [Except.isOk, Except.toBool] at hok
    · cases p2 <;>
        simp [Renderer.recordCommandBuffer, hm, Bind.bind, Except.bind,
          Except.isOk, Except.toBool]
  · have hsec : recordMeshSection mesh f = Except.ok [] := by
      rcases h with h | ⟨m, hm, hd⟩
      · rw [h]; rfl
      · rw [hm]; simp [recordMeshSection, hd]
    cases platform <;>
      simp [Renderer.recordCommandBuffer, hsec, Bind.bind, Except.bind]

/-- Witness for C10: recording with no mesh loaded on the render-pass
branch succeeds. -/
theorem recordCommandBuffer_empty_mesh_witness :
    (Renderer.recordCommandBuffer Platform.linuxRenderPass none 0 0).isOk = true :=
  (recordCommandBuffer_empty_mesh Platform.linuxRenderPass none 0 0 (Or.inl rfl)).1
    Platform.linuxRenderPass none 0 0

/-- Fold lemma for the dedup loop of `OBJLoader::load`: from any state
satisfying the loop invariant, the loop preserves the invariant, extends
the vertex buffer exactly as the first-occurrence compaction does, emits
one index per input vertex, and every emitted index looks up the input
vertex it came from. -/
theorem foldl_processVertex (input : List Vertex) :
    ∀ st : DedupState, DedupInv st →
      DedupInv (input.foldl DedupState.processVertex st) ∧
      (input.foldl DedupState.processVertex st).vertices =
        input.foldl (fun acc v => if v ∈ acc then acc else acc ++ [v]) st.vertices ∧
      (input.foldl DedupState.processVertex st).indices.length
        = st.indices.length + input.length ∧
      (input.foldl DedupState.processVertex st).indices.map
          (fun i => (input.foldl DedupState.processVertex st).vertices.getD i default)
        = st.indices.map (fun i => st.vertices.getD i default) ++ input := by
  induction input with
  | nil =>
    intro st hst
    exact ⟨hst, rfl, by simp, by simp⟩
  | cons v rest ih =>
    intro st hst
    obtain ⟨hA, hB, hC⟩ := hst
    simp only [List.foldl_cons]
    rcases hfind : st.uniqueVertices.find? (fun p => p.1 == v) with _ | p
    · -- vertex not seen before: it is appended
      have hvnotin : v ∉ st.vertices := by
        intro hv
        obtain ⟨i, hi⟩ := hB v hv
        have hcontra := List.find?_eq_none.mp hfind (v, i) hi
        simp at hcontra
      have hstep : st.processVertex v =
          { uniqueVertices := st.uniqueVertices ++ [(v, st.vertices.length)]
            vertices := st.vertices ++ [v]
            indices := st.indices ++ [st.vertices.length] } := by
        simp [DedupState.processVertex, hfind]
      have hinv1 : DedupInv (st.processVertex v) := by
        rw [hstep]
        refine ⟨?_, ?_, ?_⟩
        · intro p hp
          rcases List.mem_append.mp hp with hp | hp
          · obtain ⟨h1, h2⟩ := hA p hp
            refine ⟨by simp; omega, ?_⟩
            rw [List.getD_append _ _ _ _ h1, h2]
          · simp only [List.mem_singleton] at hp
            subst hp
            refine ⟨by simp, ?_⟩
            rw [List.getD_append_right _ _ _ _ (le_refl _)]
            simp
        · intro w hw
          rcases List.mem_append.mp hw with hw | hw
          · obtain ⟨i, hi⟩ := hB w hw
            exact ⟨i, List.mem_append.mpr (Or.inl hi)⟩
          · simp only [List.mem_singleton] at hw
            subst hw
            exact ⟨st.vertices.length, List.mem_append.mpr (Or.inr (by simp))⟩
        · intro i hi
          rcases List.mem_append.mp hi with hi | hi
          · have := hC i hi
            simp only [List.length_append, List.length_singleton]
            omega
          · simp only [List.mem_singleton] at hi
            subst hi
            simp
      obtain ⟨ih1, ih2, ih3, ih4⟩ := ih (st.processVertex v) hinv1
      refine ⟨ih1, ?_, ?_, ?_⟩
      · rw [ih2, hstep, if_neg hvnotin]
      · rw [ih3, hstep]
        simp only [List.length_append, List.length_singleton, List.length_cons,
          List.length_nil]
        omega
      · rw [ih4, hstep]
        have hmid : (st.indices ++ [st.vertices.length]).map
            (fun i => (st.vertices ++ [v]).getD i default)
            = st.indices.map (fun i => st.vertices.getD i default) ++ [v] := by
          rw [List.map_append]
          congr 1
          · exact List.map_congr_left (fun i hi =>
              List.getD_append _ _ _ _ (hC i hi))
          · simp only [List.map_cons, List.map_nil]
            rw [List.getD_append_right _ _ _ _ (le_refl _)]
            simp
        simp only [DedupState.processVertex, hfind] at hmid ⊢
        rw [hmid, List.append_assoc]
        rfl
    · -- vertex already present: its stored index is reused
      have hp1 : p.1 = v := by
        have := List.find?_some hfind
        simpa using this
      have hpmem : p ∈ st.uniqueVertices := List.mem_of_find?_eq_some hfind
      obtain ⟨hlt, hget⟩ := hA p hpmem
      have hvin : v ∈ st.vertices := by
        rw [← hp1, ← hget, List.getD_eq_getElem _ _ hlt]
        exact List.getElem_mem hlt
      have hstep : st.processVertex v = { st with indices := st.indices ++ [p.2] } := by
        simp [DedupState.processVertex, hfind]
      have hinv1 : DedupInv (st.processVertex v) := by
        rw [hstep]
        refine ⟨hA, hB, ?_⟩
        intro i hi
        rcases List.mem_append.mp hi with hi | hi
        · exact hC i hi
        · simp only [List.mem_singleton] at hi
          subst hi
          exact hlt
      obtain ⟨ih1, ih2, ih3, ih4⟩ := ih (st.processVertex v) hinv1
      refine ⟨ih1, ?_, ?_, ?_⟩
      · rw [ih2, hstep, if_pos hvin]
      · rw [ih3, hstep]
        simp only [List.length_append, List.length_singleton, List.length_cons,
          List.length_nil]
        omega
      · rw [ih4, hstep]
        have hmid : (st.indices ++ [p.2]).map (fun i => st.vertices.getD i default)
            = st.indices.map (fun i => st.vertices.getD i default) ++ [v] := by
          rw [List.map_append]
          congr 1
          simp only [List.map_cons, List.map_nil]
          rw [hget, hp1]
        simp only [DedupState.processVertex, hfind] at hmid ⊢
        rw [hmid, List.append_assoc]
        rfl

/-- The first-occurrence compaction keeps the accumulator duplicate-free. -/
theorem firstOccurrences_aux_nodup :
    ∀ (l acc : List Vertex), acc.Nodup →
      (l.foldl (fun acc v => if v ∈ acc then acc else acc ++ [v]) acc).Nodup := by
  intro l
  induction l with
  | nil => intro acc h; simpa using h
  | cons v rest ih =>
    intro acc h
    simp only [List.foldl_cons]
    by_cases hv : v ∈ acc
    · rw [if_pos hv]
      exact ih acc h
    · rw [if_neg hv]
      refine ih (acc ++ [v]) ?_
      simp [List.nodup_append, h, hv]

/-- Membership in the first-occurrence compaction is membership in the
accumulator or the remaining input. -/
theorem firstOccurrences_aux_mem :
    ∀ (l acc : List Vertex) (w : Vertex),
      w ∈ l.foldl (fun acc v => if v ∈ acc then acc else acc ++ [v]) acc ↔
        w ∈ acc ∨ w ∈ l := by
  intro l
  induction l with
  | nil => intro acc w; simp
  | cons v rest ih =>
    intro acc w
    simp only [List.foldl_cons]
    by_cases hv : v ∈ acc
    · rw [if_pos hv, ih]
      constructor
      · rintro (h | h)
        · exact Or.inl h
        · exact Or.inr (List.mem_cons_of_mem v h)
      · rintro (h | h)
        · exact Or.inl h
        · rcases List.mem_cons.mp h with rfl | h
          · exact Or.inl hv
          · exact Or.inr h
    · rw [if_neg hv, ih]
      simp only [List.mem_append, List.mem_singleton, List.mem_cons]
      tauto

/-- Claim C3: for every input vertex sequence, the dedup step of
`OBJLoader::load` outputs exactly the distinct vertices (by exact field
equality) in first-occurrence order with no duplicates, and an index
buffer of the input's length, with each index in range, such that mapping
every index through the output vertex buffer reproduces the input
sequence exactly. -/
theorem objLoader_dedup_spec (input : List Vertex) :
    (OBJLoader.dedupVertices input).1 = firstOccurrences input ∧
    (OBJLoader.dedupVertices input).1.Nodup ∧
    (∀ w, w ∈ (OBJLoader.dedupVertices input).1 ↔ w ∈ input) ∧
    (OBJLoader.dedupVertices input).2.length = input.length ∧
    (∀ i ∈ (OBJLoader.dedupVertices input).2, i < (OBJLoader.dedupVertices input).1.length) ∧
    (OBJLoader.dedupVertices input).2.map
        (fun i => (OBJLoader.dedupVertices input).1.getD i default) = input := by
  have h0 : DedupInv { uniqueVertices := [], vertices := [], indices := [] } := by
    refine ⟨?_, ?_, ?_⟩ <;> simp
  obtain ⟨hinv, hverts, hlen, hmap⟩ := foldl_processVertex input
    { uniqueVertices := [], vertices := [], indices := [] } h0
  have hfst : (OBJLoader.dedupVertices input).1 =
      (input.foldl DedupState.processVertex
        { uniqueVertices := [], vertices := [], indices := [] }).vertices := rfl
  have hsnd : (OBJLoader.dedupVertices input).2 =
      (input.foldl DedupState.processVertex
        { uniqueVertices := [], vertices := [], indices := [] }).indices := rfl
  refine ⟨?_, ?_, ?_, ?_, ?_, ?_⟩
  · rw [hfst, hverts]; rfl
  · rw [hfst, hverts]
    exact firstOccurrences_aux_nodup input [] (by simp)
  · intro w
    rw [hfst, hverts]
    simpa using firstOccurrences_aux_mem input [] w
  · rw [hsnd]
    simpa using hlen
  · intro i hi
    rw [hfst]
    exact hinv.2.2 i (by rw [hsnd] at hi; exact hi)
  · rw [hsnd, hfst]
    simpa using hmap

end VulkanFdf
